import Mathlib

/-!
Verification of the deep-research-agent pipeline (agent.py, models.py, app.py).

The Python source is shallowly embedded: strings are Lean `String`s,
Python `str.strip`/`str.upper` become explicit character-list operations,
the regex `^[A-Z]{2,5}$` becomes a decidable matcher, the async pipeline
`run_research_async` becomes a pure function over abstract providers that
also returns the ordered trace of external calls, and the `asyncio.gather`
fan-out becomes a completion-order-parameterised readout model.
-/

/-- Codepoints of the characters Python `str.strip()` removes: exactly
those with `str.isspace()` true — tab, newline, vertical tab, form feed,
carriage return, the information separators U+001C-001F, space, NEL
U+0085, no-break space U+00A0, Ogham space U+1680, the U+2000-200A
spaces, line separator U+2028, paragraph separator U+2029, narrow
no-break space U+202F, medium mathematical space U+205F and ideographic
space U+3000. -/
def pySpaceCodes : List Nat :=
  [9, 10, 11, 12, 13, 28, 29, 30, 31, 32, 133, 160, 5760,
   8192, 8193, 8194, 8195, 8196, 8197, 8198, 8199, 8200, 8201, 8202,
   8232, 8233, 8239, 8287, 12288]

/-- Whitespace test used by Python `str.strip`. -/
def isPySpace (c : Char) : Bool :=
  decide (c.toNat ∈ pySpaceCodes)

/-- Python `str.strip()`: drop leading and trailing whitespace. -/
def pyStrip (s : String) : String :=
  ⟨((s.data.dropWhile isPySpace).reverse.dropWhile isPySpace).reverse⟩

/-- Lowercase Latin letter a-z (codepoints 97-122). -/
def isLowerLatin (c : Char) : Bool :=
  97 ≤ c.toNat && c.toNat ≤ 122

/-- Uppercase Latin letter A-Z (codepoints 65-90). -/
def isUpperLatin (c : Char) : Bool :=
  65 ≤ c.toNat && c.toNat ≤ 90

/-- ASCII decimal digit 0-9 (codepoints 48-57). -/
def isDigitChar (c : Char) : Bool :=
  48 ≤ c.toNat && c.toNat ≤ 57

/-- Uppercase one character as Python `str.upper` does on ASCII. -/
def upChar (c : Char) : Char :=
  if isLowerLatin c then Char.ofNat (c.toNat - 32) else c

/-- Python `str.upper()` restricted to the ASCII case mapping: a-z map to
A-Z and every other character is kept unchanged. Full Python upper applies
Unicode case mappings that can change the character count (for example
U+00DF maps to the two letters SS), so length facts about classification
are only ever stated on this uppercased form, never on the raw or merely
trimmed input. -/
def pyUpper (s : String) : String :=
  ⟨s.data.map upChar⟩

/-- Matcher for the regex `TICKER_PATTERN = ^[A-Z]{2,5}$` of agent.py line 28:
the whole string is 2 to 5 uppercase Latin letters. -/
def tickerMatch (s : String) : Bool :=
  (decide (2 ≤ s.length) && decide (s.length ≤ 5)) && s.data.all isUpperLatin

/-- Embedding of `_is_ticker` (agent.py lines 31-33):
strip, uppercase, then match against `TICKER_PATTERN`. -/
def _is_ticker (input_str : String) : Bool :=
  tickerMatch (pyUpper (pyStrip input_str))

/-- The spec's wording of the classifier acceptance condition: the
normalised (trimmed and uppercased) string consists of exactly 2 to 5
uppercase Latin letters and nothing else. -/
def classifierSpec (s : String) : Prop :=
  2 ≤ (pyUpper (pyStrip s)).length ∧ (pyUpper (pyStrip s)).length ≤ 5 ∧
    ∀ c ∈ (pyUpper (pyStrip s)).data, isUpperLatin c = true

/-- The input contains at least one lowercase Latin letter. -/
def containsLower (s : String) : Bool :=
  s.data.any isLowerLatin

/-- The input contains at least one decimal digit. -/
def containsDigit (s : String) : Bool :=
  s.data.any isDigitChar

/-- C1: the query classifier trims and uppercases its input and returns
true iff the normalised result is exactly 2 to 5 uppercase Latin letters;
it is a pure total Lean function. In particular `" nvda "` classifies as
true, `"TOOLONG"` and `"A1"` as false. -/
theorem c1_classifier_correct :
    (∀ s : String, _is_ticker s = true ↔ classifierSpec s) ∧
    _is_ticker " nvda " = true ∧ _is_ticker "TOOLONG" = false ∧ _is_ticker "A1" = false := by
  refine ⟨fun s => ?_, by decide, by decide, by decide⟩
  unfold _is_ticker tickerMatch classifierSpec
  simp [List.all_eq_true, and_assoc]

/-- C2 counterexample: the claim says any input containing a lowercase
letter (or of length outside [2,5]) classifies as false, but `" nvda "`
contains lowercase letters, has length 6, and classifies as true. -/
theorem c2_counterexample :
    containsLower " nvda " = true ∧ " nvda ".length = 6 ∧ _is_ticker " nvda " = true := by
  decide

/-- Characters surviving `List.dropWhile`: any member not satisfying the
predicate is still present after the drop. -/
theorem mem_dropWhile_of_not {c : Char} {p : Char → Bool} :
    ∀ {l : List Char}, c ∈ l → p c = false → c ∈ l.dropWhile p
  | a :: t, h, hp => by
    by_cases ha : p a = true
    · simp [List.dropWhile, ha]
      rcases List.mem_cons.mp h with h1 | h1
      · exact absurd (h1 ▸ ha) (by simp [hp])
      · exact mem_dropWhile_of_not h1 hp
    · simp only [List.dropWhile, ha]
      simpa using h

/-- Characters surviving Python strip: any non-whitespace character of the
input is still present in the stripped string. -/
theorem mem_pyStrip_of_not_space {c : Char} {s : String} (h : c ∈ s.data)
    (hp : isPySpace c = false) : c ∈ (pyStrip s).data := by
  unfold pyStrip
  simp only [List.mem_reverse]
  exact mem_dropWhile_of_not (by simpa using mem_dropWhile_of_not h hp) hp

/-- Uppercasing keeps digits fixed and never produces an uppercase Latin
letter from a digit. -/
theorem upChar_digit {c : Char} (h : isDigitChar c = true) :
    upChar c = c ∧ isUpperLatin c = false := by
  unfold isDigitChar at h
  unfold upChar isLowerLatin isUpperLatin
  simp only [Bool.and_eq_true, decide_eq_true_eq] at h ⊢
  constructor
  · rw [if_neg]; omega
  · simp only [Bool.and_eq_false_iff, decide_eq_false_iff_not]; omega

/-- C2 amended: the classifier returns false for every input that contains
a decimal digit, or whose trimmed-and-uppercased form has length outside
[2,5], or whose trimmed-and-uppercased form contains any character that is
not an uppercase Latin letter. (The original claim's lowercase-letter and
raw-length clauses fail because the pattern is matched against the trimmed
and uppercased input — and since Python uppercasing can change the
character count, the length bound must be read on that normalised form,
not on the raw or merely trimmed input.) -/
theorem c2_amended_classifier_rejects (s : String)
    (h : containsDigit s = true ∨ (pyUpper (pyStrip s)).length < 2 ∨
      5 < (pyUpper (pyStrip s)).length ∨
      ∃ c ∈ (pyUpper (pyStrip s)).data, isUpperLatin c = false) :
    _is_ticker s = false := by
  rcases h with h | h | h | ⟨c, hc, hcu⟩
  · -- a digit survives strip and upper, and is not an uppercase letter
    unfold containsDigit at h
    rw [List.any_eq_true] at h
    obtain ⟨c, hc, hcd⟩ := h
    have hns : isPySpace c = false := by
      unfold isDigitChar at hcd
      simp only [Bool.and_eq_true, decide_eq_true_eq] at hcd
      simp only [isPySpace, pySpaceCodes, decide_eq_false_iff_not, List.mem_cons,
        List.not_mem_nil, or_false]
      omega
    have hmem : c ∈ (pyStrip s).data := mem_pyStrip_of_not_space hc hns
    have hmem2 : c ∈ (pyUpper (pyStrip s)).data := by
      unfold pyUpper
      simpa using ⟨c, hmem, (upChar_digit hcd).1⟩
    unfold _is_ticker tickerMatch
    simp only [Bool.and_eq_false_iff]
    right
    rw [List.all_eq_false]
    exact ⟨c, hmem2, by simp [(upChar_digit hcd).2]⟩
  · unfold _is_ticker tickerMatch
    simp only [Bool.and_eq_false_iff]
    left; left
    simp; omega
  · unfold _is_ticker tickerMatch
    simp only [Bool.and_eq_false_iff]
    left; right
    simp; omega
  · unfold _is_ticker tickerMatch
    simp only [Bool.and_eq_false_iff]
    right
    rw [List.all_eq_false]
    exact ⟨c, hc, by simp [hcu]⟩

/-- Witness for the amended C2: `"A1"` contains a digit and classifies
false; `"TOOLONG"` normalises to length 7 and classifies false. -/
theorem c2_amended_witness :
    _is_ticker "A1" = false ∧ _is_ticker "TOOLONG" = false :=
  ⟨c2_amended_classifier_rejects "A1" (Or.inl (by decide)),
   c2_amended_classifier_rejects "TOOLONG" (Or.inr (Or.inr (Or.inl (by decide))))⟩

/-- One web search result as produced by the search provider: agent.py
reads the keys `title`, `href` and `body` from each result dict. -/
structure SearchResult where
  title : String
  href : String
  body : String
deriving DecidableEq

/-- Embedding of the `ResolvedQuery` pydantic model (models.py lines 9-19). -/
structure ResolvedQuery where
  is_ticker : Bool
  company_context : Option String
  resolved_query : String
deriving DecidableEq

/-- Embedding of the `SearchAngles` pydantic model (models.py lines 22-29). -/
structure SearchAngles where
  angles : List String
deriving DecidableEq

/-- Models pydantic validation of `SearchAngles` (models.py lines 25-29,
`Field(min_length=3, max_length=4)`): construction succeeds only when the
angle list has between 3 and 4 elements, so the completion provider can
only ever deliver a `SearchAngles` satisfying the declared schema. -/
def SearchAngles.validate (angles : List String) : Option SearchAngles :=
  if 3 ≤ angles.length ∧ angles.length ≤ 4 then some ⟨angles⟩ else none

/-- Embedding of the `Source` pydantic model (models.py lines 40-44). -/
structure Source where
  source_title : String
  url : String
deriving DecidableEq

/-- Embedding of the `SWOT` pydantic model (models.py lines 47-53). -/
structure SWOT where
  strengths : String
  weaknesses : String
  opportunities : String
  threats : String
deriving DecidableEq

/-- Embedding of the `ResearchReport` pydantic model (models.py lines 56-100). -/
structure ResearchReport where
  executive_summary : String
  key_takeaways : String
  strategic_overview : String
  swot : SWOT
  implications_and_strategic_priorities : String
  sources : List Source
  financial_performance : String
  drivers_and_sensitivities : String
  valuation_context_and_modeling_tips : String
  regulatory_and_legal : String
  risks_and_uncertainties : String
  what_to_watch_next : List String
  additional_detail : String
deriving DecidableEq

/-- Python `"".join(parts)`: concatenation of a list of strings in order. -/
def joinParts (parts : List String) : String :=
  parts.foldr (fun p acc => p ++ acc) ""

/-- Python `sep.join(parts)`: parts interleaved with the separator. -/
def joinSep (sep : String) : List String → String
  | [] => ""
  | [a] => a
  | a :: b :: rest => a ++ sep ++ joinSep sep (b :: rest)

/-- One numbered line of a search-result digest, as built by the f-string
in agent.py lines 100 and 120. -/
def fmtResult (i : Nat) (r : SearchResult) : String :=
  toString i ++ ". " ++ r.title ++ "\n   URL: " ++ r.href ++ "\n   " ++ r.body

/-- Numbered digest lines for a result list, numbering from 1
(`enumerate(results, 1)`). -/
def fmtEnum (results : List SearchResult) : List String :=
  results.enum.map fun p => fmtResult (p.1 + 1) p.2

/-- Embedding of `_format_discovery_for_angles` (agent.py lines 94-101):
digest of the first 15 discovery results, blocks joined by blank lines. -/
def _format_discovery_for_angles (discovery_results : List SearchResult) : String :=
  joinSep "\n\n" (fmtEnum (discovery_results.take 15))

/-- The parts contributed to the synthesis context by one deep-dive angle
(agent.py lines 114-120): a header line plus the digest of the first 8 of
that angle's results. -/
def angleBlock (angle : String) (results : List SearchResult) : List String :=
  ("\n--- Deep-dive angle: " ++ angle ++ " ---") :: fmtEnum (results.take 8)

/-- Embedding of `_format_all_for_report` (agent.py lines 104-121):
resolved-query header, discovery digest, then one block per angle, all
joined by newlines. -/
def _format_all_for_report (resolved_query : String)
    (discovery_results : List SearchResult)
    (angle_to_results : List (String × List SearchResult)) : String :=
  joinSep "\n"
    (["Resolved query: " ++ resolved_query,
      "\n--- Discovery search results ---",
      _format_discovery_for_angles discovery_results]
     ++ (angle_to_results.map fun p => angleBlock p.1 p.2).flatten)

/-- C8: the angle-generation digest depends only on the first 15 discovery
results, and the synthesis digest depends, per angle, only on the first 8
of that angle's results; both are total functions, so truncation is silent
by construction. -/
theorem c8_prompt_truncation :
    (∀ discovery_results : List SearchResult,
      _format_discovery_for_angles discovery_results =
        _format_discovery_for_angles (discovery_results.take 15)) ∧
    (∀ (rq : String) (d : List SearchResult)
        (ar : List (String × List SearchResult)),
      _format_all_for_report rq d ar =
        _format_all_for_report rq d (ar.map fun p => (p.1, p.2.take 8))) := by
  constructor
  · intro d
    unfold _format_discovery_for_angles
    simp [List.take_take]
  · intro rq d ar
    unfold _format_all_for_report
    congr 2
    rw [List.map_map]
    congr 1
    apply List.map_congr_left
    intro p _
    unfold angleBlock
    simp [List.take_take]

/-- The external capabilities consumed by the pipeline, as abstract
functions: the three pydantic-ai agents of agent.py (resolution,
angle generation, report synthesis — each returning a structured value or
nothing) and the DuckDuckGo text search `_ddgs_text`. The angle agent
delivers its raw output list before schema validation. -/
structure Providers where
  resolveOut : String → Option ResolvedQuery
  anglesOut : String → Option (List String)
  reportOut : String → Option ResearchReport
  searchOut : String → Nat → List SearchResult

/-- One observable external call (or chosen intermediate) of a pipeline
run, recorded in order. -/
inductive Event where
  | resolveCall (prompt : String)
  | searchCall (query : String) (maxResults : Nat)
  | angleCall (prompt : String)
  | angleSetChosen (angles : List String)
  | reportCall (prompt : String)
deriving DecidableEq

/-- The fatal pipeline errors of agent.py `run_research_async`
(each a `raise ValueError(...)`). -/
inductive PipelineError where
  | emptyQuery
  | resolutionFailed (raw : String)
  | emptyDiscovery
  | noAngles
  | noReport
deriving DecidableEq

/-- Embedding of pipeline step 1 (agent.py lines 139-151): when the input
classifies as a ticker, call the resolution agent and use its
`resolved_query`; otherwise use the trimmed input unchanged. -/
def resolveStep (P : Providers) (raw : String) :
    Except PipelineError String × List Event :=
  if _is_ticker raw then
    let prompt := "Resolve this stock ticker for web search: " ++ raw
    match P.resolveOut prompt with
    | none => (Except.error (PipelineError.resolutionFailed raw), [Event.resolveCall prompt])
    | some r => (Except.ok r.resolved_query, [Event.resolveCall prompt])
  else (Except.ok raw, [])

/-- The angle-generation prompt built in agent.py lines 165-169. -/
def anglePromptOf (resolved_query : String) (discovery : List SearchResult) : String :=
  "Discovery search results for: " ++ resolved_query ++ "\n\n"
    ++ _format_discovery_for_angles discovery ++ "\n\n"
    ++ "Produce 3-4 non-overlapping search angles (keywords/phrases) for deep-dive searches."

/-- The report-synthesis prompt built in agent.py lines 191-197. -/
def reportPromptOf (resolved_query : String) (discovery : List SearchResult)
    (angle_to_results : List (String × List SearchResult)) : String :=
  "Produce a structured research report from the following search results.\n\n"
    ++ _format_all_for_report resolved_query discovery angle_to_results

/-- Embedding of pipeline steps 2-5 (agent.py lines 153-204), run after
the resolved query is known: discovery search, empty-discovery check,
angle generation with schema validation and the non-empty check, per-angle
deep-dive searches in launch order, and report synthesis. -/
def pipelineAfterResolve (P : Providers) (rq : String) :
    Except PipelineError ResearchReport × List Event :=
  let discovery := P.searchOut rq 10
  let tr2 : List Event := [Event.searchCall rq 10]
  if discovery = [] then (Except.error PipelineError.emptyDiscovery, tr2)
  else
    let prompt := anglePromptOf rq discovery
    let tr3 := tr2 ++ [Event.angleCall prompt]
    match (P.anglesOut prompt).bind SearchAngles.validate with
    | none => (Except.error PipelineError.noAngles, tr3)
    | some sa =>
      if sa.angles = [] then (Except.error PipelineError.noAngles, tr3)
      else
        let angle_to_results := sa.angles.map fun a => (a, P.searchOut a 10)
        let rp := reportPromptOf rq discovery angle_to_results
        let tr6 := tr3 ++ [Event.angleSetChosen sa.angles]
          ++ (sa.angles.map fun a => Event.searchCall a 10) ++ [Event.reportCall rp]
        match P.reportOut rp with
        | none => (Except.error PipelineError.noReport, tr6)
        | some report => (Except.ok report, tr6)

/-- Embedding of `run_research_async` (agent.py lines 130-204): strip the
query, reject blank input, resolve, then run the remaining stages. The
second component is the ordered trace of external calls made. -/
def run_research (P : Providers) (query : String) :
    Except PipelineError ResearchReport × List Event :=
  let raw := pyStrip query
  if raw = "" then (Except.error PipelineError.emptyQuery, [])
  else
    match resolveStep P raw with
    | (Except.error e, tr) => (Except.error e, tr)
    | (Except.ok rq, tr) =>
      let rest := pipelineAfterResolve P rq
      (rest.1, tr ++ rest.2)

/-- C3: on input that is empty or whitespace-only after trimming, the
pipeline fails with the empty-query error and the call trace is empty:
no completion-provider and no search-provider invocation happens. -/
theorem c3_empty_query_short_circuit (P : Providers) (query : String)
    (h : pyStrip query = "") :
    run_research P query = (Except.error PipelineError.emptyQuery, []) := by
  unfold run_research
  simp [h]

/-- Witness for C3 at the concrete whitespace-only input. -/
theorem c3_witness :
    run_research
      { resolveOut := fun _ => none, anglesOut := fun _ => none,
        reportOut := fun _ => none, searchOut := fun _ _ => [] } "  \t\n "
      = (Except.error PipelineError.emptyQuery, []) :=
  c3_empty_query_short_circuit _ "  \t\n " (by decide)

/-- Recogniser for search-provider call events. -/
def Event.isSearch : Event → Bool
  | Event.searchCall _ _ => true
  | _ => false

/-- Recogniser for angle-generation completion call events. -/
def Event.isAngleGen : Event → Bool
  | Event.angleCall _ => true
  | _ => false

/-- Recogniser for synthesis completion call events. -/
def Event.isSynthesis : Event → Bool
  | Event.reportCall _ => true
  | _ => false

/-- The resolution step records either no event (non-ticker input) or
exactly one resolution call. -/
theorem resolveStep_trace_shape (P : Providers) (raw : String) :
    (resolveStep P raw).2 = [] ∨ ∃ p, (resolveStep P raw).2 = [Event.resolveCall p] := by
  simp only [resolveStep]
  split
  · split <;> exact Or.inr ⟨_, rfl⟩
  · exact Or.inl rfl

/-- On non-ticker input the resolution step is the identity and records
no event. -/
theorem resolveStep_not_ticker (P : Providers) (raw : String)
    (h : _is_ticker raw = false) :
    resolveStep P raw = (Except.ok raw, []) := by
  simp [resolveStep, h]

/-- C4: whenever discovery returns an empty result list, the pipeline
fails with the empty-discovery error: the trace extends the resolution
trace by the single discovery search, so it contains no angle-generation
call, no synthesis call, and exactly one search call in total (hence no
deep-dive searches). -/
theorem c4_empty_discovery_short_circuit (P : Providers) (q rq : String) (tr : List Event)
    (h0 : pyStrip q ≠ "")
    (h1 : resolveStep P (pyStrip q) = (Except.ok rq, tr))
    (h2 : P.searchOut rq 10 = []) :
    run_research P q =
      (Except.error PipelineError.emptyDiscovery, tr ++ [Event.searchCall rq 10]) ∧
    (run_research P q).2.countP Event.isAngleGen = 0 ∧
    (run_research P q).2.countP Event.isSynthesis = 0 ∧
    (run_research P q).2.countP Event.isSearch = 1 := by
  have hmain : run_research P q =
      (Except.error PipelineError.emptyDiscovery, tr ++ [Event.searchCall rq 10]) := by
    unfold run_research
    rw [if_neg h0, h1]
    simp only [pipelineAfterResolve]
    rw [if_pos h2]
  have hshape := resolveStep_trace_shape P (pyStrip q)
  rw [h1] at hshape
  dsimp only at hshape
  refine ⟨hmain, ?_, ?_, ?_⟩ <;>
    rcases hshape with hs | ⟨p, hs⟩ <;>
      simp [hmain, hs, List.countP_append, List.countP_cons,
        Event.isAngleGen, Event.isSynthesis, Event.isSearch]

/-- The trace of the post-resolution stages always starts with the
discovery search for the resolved query. -/
theorem pipelineAfterResolve_trace_head (P : Providers) (rq : String) :
    ∃ rest, (pipelineAfterResolve P rq).2 = Event.searchCall rq 10 :: rest := by
  simp only [pipelineAfterResolve]
  split
  · exact ⟨[], rfl⟩
  · split
    · exact ⟨_, rfl⟩
    · split
      · exact ⟨_, rfl⟩
      · split <;> exact ⟨_, rfl⟩

/-- The post-resolution stages never invoke the resolution agent. -/
theorem pipelineAfterResolve_no_resolve (P : Providers) (rq p : String) :
    Event.resolveCall p ∉ (pipelineAfterResolve P rq).2 := by
  simp only [pipelineAfterResolve]
  split
  · simp
  · split
    · simp
    · split
      · simp
      · split <;> simp

/-- A successfully validated `SearchAngles` carries exactly the raw list,
whose length pydantic has checked to lie in [3,4]. -/
theorem validate_length {l : List String} {sa : SearchAngles}
    (h : SearchAngles.validate l = some sa) :
    sa.angles = l ∧ 3 ≤ l.length ∧ l.length ≤ 4 := by
  unfold SearchAngles.validate at h
  split at h
  · cases h
    exact ⟨rfl, by assumption⟩
  · cases h

/-- Any angle set recorded by the post-resolution stages has between 3
and 4 angles. -/
theorem pipelineAfterResolve_angleSet (P : Providers) (rq : String) (l : List String)
    (h : Event.angleSetChosen l ∈ (pipelineAfterResolve P rq).2) :
    l.length = 3 ∨ l.length = 4 := by
  simp only [pipelineAfterResolve] at h
  split at h
  · simp at h
  · split at h
    · simp at h
    · rename_i sa heq
      rcases Option.bind_eq_some.mp heq with ⟨raw, _, hval⟩
      obtain ⟨hangles, h3, h4⟩ := validate_length hval
      split at h
      · simp at h
      · split at h <;> simp at h <;> subst h <;> rw [hangles] <;> omega

/-- C5: every angle set the pipeline proceeds with has 3 or 4 angles
(so a completion result with 2 angles never flows into the deep-dive
stage), and when the angle agent returns nothing or an empty angle list
the run fails with the no-angles error. -/
theorem c5_angle_count_invariant (P : Providers) (q : String) :
    (∀ l, Event.angleSetChosen l ∈ (run_research P q).2 →
      l.length = 3 ∨ l.length = 4) ∧
    (∀ rq tr, pyStrip q ≠ "" → resolveStep P (pyStrip q) = (Except.ok rq, tr) →
      P.searchOut rq 10 ≠ [] →
      (P.anglesOut (anglePromptOf rq (P.searchOut rq 10)) = none ∨
       P.anglesOut (anglePromptOf rq (P.searchOut rq 10)) = some []) →
      (run_research P q).1 = Except.error PipelineError.noAngles) := by
  constructor
  · intro l hl
    simp only [run_research] at hl
    split at hl
    · simp at hl
    · split at hl
      · rename_i e tr heq
        have hshape := resolveStep_trace_shape P (pyStrip q)
        rw [heq] at hshape
        dsimp only at hshape
        rcases hshape with hs | ⟨p, hs⟩ <;> rw [hs] at hl <;> simp at hl
      · rename_i rq tr heq
        have hshape := resolveStep_trace_shape P (pyStrip q)
        rw [heq] at hshape
        dsimp only at hshape
        dsimp only at hl
        rw [List.mem_append] at hl
        rcases hl with hl | hl
        · rcases hshape with hs | ⟨p, hs⟩ <;> rw [hs] at hl <;> simp at hl
        · exact pipelineAfterResolve_angleSet P rq l hl
  · intro rq tr h0 h1 h2 h3
    unfold run_research
    rw [if_neg h0, h1]
    dsimp only
    simp only [pipelineAfterResolve]
    rw [if_neg h2]
    rcases h3 with h3 | h3 <;> rw [h3] <;> rfl

/-- A provider assembly whose search always returns nothing; used to
exercise the short-circuit theorems at concrete inputs. -/
def Pex0 : Providers where
  resolveOut := fun _ => none
  anglesOut := fun _ => none
  reportOut := fun _ => none
  searchOut := fun _ _ => []

/-- A fully populated concrete report value. -/
def exampleReport : ResearchReport where
  executive_summary := "es"
  key_takeaways := "kt"
  strategic_overview := "so"
  swot := { strengths := "s", weaknesses := "w", opportunities := "o", threats := "t" }
  implications_and_strategic_priorities := "ip"
  sources := [{ source_title := "src", url := "https://x" }]
  financial_performance := "fp"
  drivers_and_sensitivities := "ds"
  valuation_context_and_modeling_tips := "vc"
  regulatory_and_legal := "rl"
  risks_and_uncertainties := "ru"
  what_to_watch_next := ["watch"]
  additional_detail := ""

/-- A provider assembly that answers every stage successfully with three
angles; used to exercise the success-path theorems at concrete inputs. -/
def Pex1 : Providers where
  resolveOut := fun _ => some { is_ticker := true, company_context := some "c", resolved_query := "rq" }
  anglesOut := fun _ => some ["angle one", "angle two", "angle three"]
  reportOut := fun _ => some exampleReport
  searchOut := fun _ _ => [{ title := "t", href := "u", body := "b" }]

/-- Witness for C4 at a concrete non-ticker query against the
empty-search providers. -/
theorem c4_witness :
    run_research Pex0 "hello world" =
      (Except.error PipelineError.emptyDiscovery, [Event.searchCall "hello world" 10]) ∧
    (run_research Pex0 "hello world").2.countP Event.isAngleGen = 0 ∧
    (run_research Pex0 "hello world").2.countP Event.isSynthesis = 0 ∧
    (run_research Pex0 "hello world").2.countP Event.isSearch = 1 := by
  have h1 : resolveStep Pex0 (pyStrip "hello world") = (Except.ok "hello world", []) := by
    have hps : pyStrip "hello world" = "hello world" := by decide
    rw [hps]
    exact resolveStep_not_ticker Pex0 "hello world" (by decide)
  have h := c4_empty_discovery_short_circuit Pex0 "hello world" "hello world" [] (by decide) h1 rfl
  simpa using h

/-- Witness for C5: the concrete run with three angles records that angle
set, and the theorem yields its length bound. -/
theorem c5_witness :
    ["angle one", "angle two", "angle three"].length = 3 ∨
    ["angle one", "angle two", "angle three"].length = 4 :=
  (c5_angle_count_invariant Pex1 "hello world").1 ["angle one", "angle two", "angle three"]
    (by decide)

/-- C7: for input that does not classify as a ticker, the resolution agent
is never invoked and the discovery search (the first external call of the
run) uses the trimmed raw input verbatim as its query. -/
theorem c7_non_ticker_skips_resolution (P : Providers) (q : String)
    (h0 : pyStrip q ≠ "") (h1 : _is_ticker (pyStrip q) = false) :
    (∀ p, Event.resolveCall p ∉ (run_research P q).2) ∧
    ∃ rest, (run_research P q).2 = Event.searchCall (pyStrip q) 10 :: rest := by
  have hr : resolveStep P (pyStrip q) = (Except.ok (pyStrip q), []) :=
    resolveStep_not_ticker P (pyStrip q) h1
  have htr : (run_research P q).2 = (pipelineAfterResolve P (pyStrip q)).2 := by
    unfold run_research
    rw [if_neg h0, hr]
    simp
  constructor
  · intro p
    rw [htr]
    exact pipelineAfterResolve_no_resolve P (pyStrip q) p
  · rw [htr]
    exact pipelineAfterResolve_trace_head P (pyStrip q)

/-- Witness for C7 at a concrete free-text query: no resolution call is
recorded in that run's trace. -/
theorem c7_witness :
    Event.resolveCall "p" ∉ (run_research Pex1 "hello world").2 :=
  (c7_non_ticker_skips_resolution Pex1 "hello world" (by decide) (by decide)).1 "p"

/-- Model of `asyncio.gather` reading out completed tasks: `n` tasks are
launched, they complete in some order producing an association of task
index to value, and `gather` returns the values in task (launch) order. -/
def gatherReadout (n : Nat) (completions : List (Nat × α)) : List (Option α) :=
  (List.range n).map fun j => completions.lookup j

/-- Model of the deep-dive fan-out (agent.py lines 180-186): one
`search_one` task per angle is launched; the task for launch index `i`
performs the search for its own angle and yields the pair
`(angle, results)`; tasks complete in the arbitrary order `order`; the
awaited gather returns the pairs in launch order. -/
def deepDiveStage (angles : List String) (search : String → Nat → List SearchResult)
    (order : List Nat) : List (Option (String × List SearchResult)) :=
  gatherReadout angles.length
    (order.map fun i => (i, (angles.getD i "", search (angles.getD i "") 10)))

/-- The search calls performed by the deep-dive tasks, in the order the
underlying searches actually run. -/
def deepDiveCalls (angles : List String) (order : List Nat) : List Event :=
  order.map fun i => Event.searchCall (angles.getD i "") 10

/-- Looking up a key present in an index-keyed association list built from
a function returns that function's value at the key. -/
theorem lookup_map_of_mem (g : Nat → α) :
    ∀ (order : List Nat) (j : Nat), j ∈ order →
      (order.map fun i => (i, g i)).lookup j = some (g j)
  | i :: rest, j, h => by
    simp only [List.map_cons, List.lookup]
    by_cases hj : j = i
    · simp [hj]
    · have : (j == i) = false := by simp [hj]
      rw [this]
      exact lookup_map_of_mem g rest j (by rcases List.mem_cons.mp h with h1 | h1 <;> simp_all)

/-- Mapping a function over the positions of a list equals mapping over
its elements. -/
theorem range_map_getD (l : List α) (d : α) (f : α → β) :
    (List.range l.length).map (fun i => f (l.getD i d)) = l.map f := by
  apply List.ext_getElem
  · simp
  · intro i h1 h2
    simp only [List.getElem_map, List.getElem_range]
    rw [List.getD_eq_getElem l d (by simpa using h1)]

/-- Whenever the completion order is a permutation of the launch indices
(every task completes exactly once), the gather readout pairs each angle,
in launch order, with exactly the result of that angle's own search. -/
theorem deepDiveStage_readout (angles : List String)
    (search : String → Nat → List SearchResult) (order : List Nat)
    (hperm : order.Perm (List.range angles.length)) :
    deepDiveStage angles search order =
      angles.map fun a => some (a, search a 10) := by
  unfold deepDiveStage gatherReadout
  have hmem : ∀ j, j < angles.length → j ∈ order := fun j hj =>
    (hperm.mem_iff).mpr (List.mem_range.mpr hj)
  have h1 : (List.range angles.length).map
      (fun j => (order.map fun i => (i, (angles.getD i "", search (angles.getD i "") 10))).lookup j)
      = (List.range angles.length).map
        (fun j => some (angles.getD j "", search (angles.getD j "") 10)) := by
    apply List.map_congr_left
    intro j hj
    exact lookup_map_of_mem _ order j (hmem j (List.mem_range.mp hj))
  rw [h1]
  exact range_map_getD angles "" fun a => some (a, search a 10)

/-- C6: for an angle list of length 3 or 4 and any completion order of the
concurrent tasks, the deep-dive stage performs exactly one search call per
angle (the multiset of performed calls is exactly the angle list's), and
its readout, available only once all tasks are complete, associates each
angle with precisely the result of that angle's own search. -/
theorem c6_deep_dive_fanout (angles : List String)
    (search : String → Nat → List SearchResult) (order : List Nat)
    (_h34 : angles.length = 3 ∨ angles.length = 4)
    (hperm : order.Perm (List.range angles.length)) :
    (deepDiveCalls angles order).Perm (angles.map fun a => Event.searchCall a 10) ∧
    (deepDiveCalls angles order).length = angles.length ∧
    deepDiveStage angles search order = angles.map fun a => some (a, search a 10) := by
  have hcalls : (deepDiveCalls angles order).Perm (angles.map fun a => Event.searchCall a 10) := by
    unfold deepDiveCalls
    have h2 := hperm.map fun i => Event.searchCall (angles.getD i "") 10
    rw [range_map_getD angles "" fun a => Event.searchCall a 10] at h2
    exact h2
  exact ⟨hcalls, by simpa using hcalls.length_eq.trans (by simp),
    deepDiveStage_readout angles search order hperm⟩

/-- Witness for C6: four angles, tasks completing in a scrambled order. -/
theorem c6_witness :
    deepDiveStage ["a1", "a2", "a3", "a4"] (fun q _ => [{ title := q, href := "", body := "" }])
      [2, 0, 3, 1]
      = ["a1", "a2", "a3", "a4"].map fun a =>
          some (a, [{ title := a, href := "", body := "" }]) :=
  (c6_deep_dive_fanout ["a1", "a2", "a3", "a4"]
    (fun q _ => [{ title := q, href := "", body := "" }]) [2, 0, 3, 1]
    (Or.inr (by decide)) (by decide)).2.2

/-- Filtering through an always-some function is mapping. -/
theorem filterMap_some_comp (f : α → β) (l : List α) :
    l.filterMap (fun a => some (f a)) = l.map f := by
  induction l with
  | nil => rfl
  | cons a t ih => simp [List.filterMap_cons, ih]

/-- C10: for any completion order of the deep-dive tasks, the gather
readout keeps the pairs in launch (angle-list) order: the sequence of
angle keys equals the input angle list, and the synthesis context built
from the readout equals the one built from the angles in list order, so
the per-angle blocks of the synthesis prompt appear in angle-list order. -/
theorem c10_gather_preserves_order (rq : String) (d : List SearchResult)
    (angles : List String) (search : String → Nat → List SearchResult)
    (order : List Nat) (hperm : order.Perm (List.range angles.length)) :
    ((deepDiveStage angles search order).filterMap id).map Prod.fst = angles ∧
    _format_all_for_report rq d ((deepDiveStage angles search order).filterMap id) =
      _format_all_for_report rq d (angles.map fun a => (a, search a 10)) := by
  have h := deepDiveStage_readout angles search order hperm
  have hfm : (deepDiveStage angles search order).filterMap id =
      angles.map fun a => (a, search a 10) := by
    rw [h, List.filterMap_map]
    exact filterMap_some_comp _ angles
  constructor
  · rw [hfm, List.map_map]
    have hfst : (Prod.fst ∘ fun a : String => (a, search a 10)) = id := rfl
    rw [hfst, List.map_id]
  · rw [hfm]

/-- Witness for C10: three angles completing in reverse order still read
out in launch order. -/
theorem c10_witness :
    ((deepDiveStage ["x", "y", "z"] (fun _ _ => []) [2, 1, 0]).filterMap id).map Prod.fst
      = ["x", "y", "z"] :=
  (c10_gather_preserves_order "rq" [] ["x", "y", "z"] (fun _ _ => []) [2, 1, 0]
    (by decide)).1

/-- One source bullet as built by the f-string in app.py line 49
(with its trailing newline). -/
def sourceLine (s : Source) : String :=
  "- [" ++ s.source_title ++ "](" ++ s.url ++ ")\n"

/-- One what-to-watch bullet as built by the f-string in app.py line 76
(with its trailing newline). -/
def watchLine (item : String) : String :=
  "- " ++ item ++ "\n"

/-- Embedding of `report_to_markdown` (app.py lines 15-86): the parts list
is assembled exactly as the Python code appends to `parts`, and the result
is their concatenation. -/
def report_to_markdown (r : ResearchReport) : String :=
  joinParts
    (["## Executive summary\n\n", r.executive_summary, "\n\n---\n\n",
      "## Key takeaways\n\n", r.key_takeaways, "\n\n---\n\n",
      "## Strategic overview\n\n", r.strategic_overview, "\n\n---\n\n",
      "## SWOT\n\n",
      "**Strengths**\n\n", r.swot.strengths,
      "\n\n**Weaknesses**\n\n", r.swot.weaknesses,
      "\n\n**Opportunities**\n\n", r.swot.opportunities,
      "\n\n**Threats**\n\n", r.swot.threats,
      "\n\n---\n\n",
      "## Implications and strategic priorities\n\n",
      r.implications_and_strategic_priorities, "\n\n---\n\n",
      "## Sources\n\n"]
     ++ (if r.sources.isEmpty then ["(No sources listed.)\n"]
         else r.sources.map sourceLine)
     ++ ["\n---\n\n",
      "## Financial performance\n\n", r.financial_performance, "\n\n---\n\n",
      "## Drivers and sensitivities\n\n", r.drivers_and_sensitivities, "\n\n---\n\n",
      "## Valuation context and modeling tips\n\n",
      r.valuation_context_and_modeling_tips, "\n\n---\n\n",
      "## Regulatory and legal environment\n\n", r.regulatory_and_legal, "\n\n---\n\n",
      "## Risks and uncertainties\n\n", r.risks_and_uncertainties, "\n\n---\n\n",
      "## What to watch next\n\n"]
     ++ r.what_to_watch_next.map watchLine
     ++ (if r.what_to_watch_next.isEmpty then ["(None listed.)\n"] else [])
     ++ ["\n---\n\n"]
     ++ (if r.additional_detail = "" then []
         else ["## More detail\n\n", r.additional_detail, "\n"]))

/-- A source rendered as a title+link pair, as the spec's rendering
interface words it (without line-layout detail). -/
def sourceEntry (s : Source) : String :=
  "- [" ++ s.source_title ++ "](" ++ s.url ++ ")"

/-- A what-to-watch item rendered as a list entry. -/
def watchEntry (item : String) : String :=
  "- " ++ item

/-- The sources section body per the spec: a list of title+link pairs, or
an explicit none placeholder when empty. -/
def sourcesBody (sources : List Source) : String :=
  if sources.isEmpty then "(No sources listed.)"
  else joinSep "\n" (sources.map sourceEntry)

/-- The what-to-watch section body per the spec: a list, or an explicit
none placeholder when empty. -/
def watchBody (items : List String) : String :=
  if items.isEmpty then "(None listed.)"
  else joinSep "\n" (items.map watchEntry)

/-- The spec's fixed section sequence: executive summary, key takeaways,
strategic overview, SWOT with labeled sub-blocks, implications and
priorities, sources, financial performance, drivers and sensitivities,
valuation context, regulatory/legal, risks, what-to-watch. -/
def specSections (r : ResearchReport) : List String :=
  ["## Executive summary\n\n" ++ r.executive_summary,
   "## Key takeaways\n\n" ++ r.key_takeaways,
   "## Strategic overview\n\n" ++ r.strategic_overview,
   "## SWOT\n\n" ++ "**Strengths**\n\n" ++ r.swot.strengths
     ++ "\n\n**Weaknesses**\n\n" ++ r.swot.weaknesses
     ++ "\n\n**Opportunities**\n\n" ++ r.swot.opportunities
     ++ "\n\n**Threats**\n\n" ++ r.swot.threats,
   "## Implications and strategic priorities\n\n"
     ++ r.implications_and_strategic_priorities,
   "## Sources\n\n" ++ sourcesBody r.sources,
   "## Financial performance\n\n" ++ r.financial_performance,
   "## Drivers and sensitivities\n\n" ++ r.drivers_and_sensitivities,
   "## Valuation context and modeling tips\n\n" ++ r.valuation_context_and_modeling_tips,
   "## Regulatory and legal environment\n\n" ++ r.regulatory_and_legal,
   "## Risks and uncertainties\n\n" ++ r.risks_and_uncertainties,
   "## What to watch next\n\n" ++ watchBody r.what_to_watch_next]

/-- The spec's rendering contract: the fixed sections joined by uniform
horizontal dividers, followed by the optional trailing additional-detail
block which is omitted entirely when empty. -/
def renderSpec (r : ResearchReport) : String :=
  joinSep "\n\n---\n\n" (specSections r) ++ "\n\n---\n\n"
    ++ (if r.additional_detail = "" then ""
        else "## More detail\n\n" ++ r.additional_detail ++ "\n")

/-- Unfolding of the concatenation over an empty parts list. -/
theorem joinParts_nil : joinParts [] = "" := rfl

/-- Unfolding of the concatenation over a parts cons. -/
theorem joinParts_cons (a : String) (l : List String) :
    joinParts (a :: l) = a ++ joinParts l := rfl

/-- Concatenation distributes over appended parts lists. -/
theorem joinParts_append (l1 l2 : List String) :
    joinParts (l1 ++ l2) = joinParts l1 ++ joinParts l2 := by
  induction l1 with
  | nil =>
    show joinParts l2 = "" ++ joinParts l2
    apply String.ext
    simp [String.data_append]
  | cons a t ih =>
    show a ++ joinParts (t ++ l2) = (a ++ joinParts t) ++ joinParts l2
    rw [ih, String.append_assoc]

/-- A source bullet is its spec entry plus a newline. -/
theorem sourceLine_eq (s : Source) : sourceLine s = sourceEntry s ++ "\n" := by
  unfold sourceLine sourceEntry
  simp only [String.append_assoc]
  rfl

/-- A watch bullet is its spec entry plus a newline. -/
theorem watchLine_eq (item : String) : watchLine item = watchEntry item ++ "\n" := by
  unfold watchLine watchEntry
  simp only [String.append_assoc]

/-- Concatenating newline-terminated lines equals interleaving the bare
lines with newlines and appending one trailing newline. -/
theorem join_mapLine (f g : α → String) (hf : ∀ x, f x = g x ++ "\n") :
    ∀ (x : α) (l : List α),
      joinParts (f x :: List.map f l) = joinSep "\n" (g x :: List.map g l) ++ "\n"
  | x, [] => by
    simp only [List.map_nil, joinParts_cons, joinParts_nil,
      String.append_empty, joinSep, hf]
  | x, y :: t => by
    have ih := join_mapLine f g hf y t
    simp only [List.map_cons, joinParts_cons] at ih ⊢
    rw [ih, hf x]
    show _ = joinSep "\n" (g x :: g y :: List.map g t) ++ "\n"
    rw [joinSep]
    simp only [String.append_assoc]

/-- C9: the Python renderer meets the spec's rendering contract: fixed
section order with uniform dividers, explicit none placeholders for empty
sources and empty what-to-watch lists, and the trailing additional-detail
block omitted entirely when empty. Being a pure function of the report,
rendering the same report twice yields byte-identical output. -/
theorem c9_render_fixed_order (r : ResearchReport) :
    report_to_markdown r = renderSpec r := by
  rcases hs : r.sources with _ | ⟨s0, srest⟩ <;>
    rcases hw : r.what_to_watch_next with _ | ⟨w0, wrest⟩ <;>
      by_cases hd : r.additional_detail = "" <;>
        simp only [report_to_markdown, renderSpec, specSections, sourcesBody, watchBody,
          hs, hw, hd, List.isEmpty_nil, List.isEmpty_cons, Bool.false_eq_true,
          if_true, if_false, List.map_cons, List.map_nil, joinParts_append, joinParts_nil,
          join_mapLine sourceLine sourceEntry sourceLine_eq,
          join_mapLine watchLine watchEntry watchLine_eq] <;>
        (try simp only [joinParts_cons, joinParts_nil, joinSep,
          String.append_assoc, String.append_empty]) <;>
        (try rfl)
